import Mathlib

/-!
A shallow embedding of `src/daemon/controller.py` (class `RGBd`), the daemon
lifecycle supervisor of the rgbd repository, together with theorems settling
the specification claims about it.

Modelling conventions:

* Machine state visible to the supervisor is a `World`: the content of the one
  file at `self.daemon_pidfile` (`none` = absent), liveness / signal-permission
  / responds-to-SIGTERM predicates over PIDs, whether the process runs as root,
  and its own PID.  Python integers are `Int`.
* Each method returns `World × List Ev × Outcome`: the updated world, the
  trace of externally visible effects in order, and how the call ended
  (`returned` normally, `exited code` via `sys.exit`, `raised e` for an
  uncaught exception, or `running` for entering the never-returning
  animation loop).
* Attributes that `__init__` (or `run`) may leave unset are `Option` fields /
  `Bool` flags on the `RGBd` structure; reading an unset attribute raises
  `Err.attributeError`, exactly where the corresponding Python line reads it.
* The double fork / setsid / umask / stream redirection of `daemonize`
  (lines 88-118) duplicate the OS process; the model follows the surviving
  grandchild and collapses that block into the single event `Ev.forkDetach`
  (no claim concerns fork failure).  `os.kill` on the spawned multiprocessing
  child cannot raise `ProcessLookupError` before the parent joins it (an
  exited child is a zombie until reaped), so signalling the child always
  succeeds in the model.
-/

/-- Uncaught Python exceptions that the modelled methods can raise. -/
inductive Err
  | attributeError   -- reading an attribute `__init__`/`run` never set
  | valueError       -- `int()` on a non-integer pidfile content
  | rootError        -- the run-as-root refusal in `run()` (line 43-44)
  deriving DecidableEq, Repr

/-- How a call to a modelled method ends. -/
inductive Outcome
  | returned             -- the Python method returned normally
  | exited (code : Int)  -- `sys.exit(code)`
  | raised (e : Err)     -- an uncaught exception propagated
  | running              -- entered `strip.animate`, which never returns
  deriving DecidableEq, Repr

/-- Externally visible effects, in program order, of the controller's methods.
Each constructor corresponds to one effectful line of `controller.py`. -/
inductive Ev
  | blank                    -- `self.strip.blank_strip()`           (line 59)
  | sigintChild (p : Int)    -- `os.kill(listener.pid, SIGINT)`      (line 60)
  | joinChild                -- `listener.join(timeout=0.25)`        (line 61)
  | sigkillChild (p : Int)   -- `os.kill(listener.pid, SIGKILL)`     (line 64)
  | warnKilledChild          -- "Had to SIGKILL child - ..."         (line 65)
  | rmPidfile                -- `os.remove(self.daemon_pidfile)` (lines 69,158,180)
  | msgExit                  -- "rgbd exited successfully at ..."    (line 73)
  | closeStreams             -- closing stdin/stdout/stderr      (lines 74-76)
  | warnNoPid                -- "No pid found when stopping - ..."   (line 161)
  | warnPidfileExists        -- "pidfile exists with value ..."      (line 141)
  | warnPermission           -- "Unable to kill existing process..." (line 172)
  | warnHang                 -- "Daemon didn't exit in time - ..."   (line 176)
  | sigterm (p : Int)        -- `os.kill(pid, SIGTERM)`              (line 165)
  | sleep300                 -- `time.sleep(0.3)`                    (line 166)
  | probe (p : Int)          -- `os.kill(pid, 0)` liveness probe     (line 167)
  | forkDetach               -- double fork / setsid / umask / redirect (88-118)
  | bindSignals              -- `signal.signal(...)` bindings    (lines 121-123)
  | writePidfile (p : Int)   -- pidfile creation                 (lines 126-127)
  | msgDaemonized            -- "Daemonization finished at ..."      (line 130)
  | spawnChild               -- `listener_thread.start()`            (line 48)
  | animate                  -- `self.strip.animate(self.queue)`     (line 51)
  deriving DecidableEq, Repr

/-- The `self.daemon_*` attributes that `__init__` sets only on the
daemonizing path (lines 24-34). -/
structure DaemonAttrs where
  daemon_stdin : String
  daemon_in_md : String
  daemon_stdout : String
  daemon_out_md : String
  daemon_stderr : String
  daemon_err_md : String
  daemon_chdir : String
  daemon_pidfile : String
  deriving DecidableEq, Repr

/-- The spawned `multiprocessing.Process` listener child as the supervisor can
observe it: its PID and whether it exits within the 0.25 s `join` window after
receiving SIGINT. -/
structure ChildInfo where
  pid : Int
  respondsToInt : Bool
  deriving DecidableEq, Repr

/-- OS state visible to the controller.  `pidfile` is the content of the file
at `self.daemon_pidfile` (`none` = absent).  `alive p` / `permitted p` say
whether a process with PID `p` exists / may be signalled by us; `diesOnTerm p`
says whether it exits within the 0.3 s grace sleep after SIGTERM. -/
structure World where
  pidfile : Option String
  alive : Int → Bool
  permitted : Int → Bool
  diesOnTerm : Int → Bool
  isRoot : Bool
  selfPid : Int

/-- The `RGBd` object.  `attrs = none` models the `self.daemon_*` attributes
never having been set (constructor returned early at line 21); likewise
`hasStrip = false` / `listener = none` model `self.strip` /
`self.listener_thread` not existing before `run()` sets them. -/
structure RGBd where
  blank_on_exit : Bool
  do_daemonize : Bool
  attrs : Option DaemonAttrs
  hasStrip : Bool
  listener : Option ChildInfo

/-- The JSON config object, restricted to the keys `controller.py` reads
(`conf.get(...)` with defaults): a missing key is `none`. -/
structure DaemonConfJson where
  stdin : Option String
  stdin_mode : Option String
  stdout : Option String
  stdout_mode : Option String
  stderr : Option String
  stderr_mode : Option String
  working_dir : Option String
  pidfile : Option String
  deriving DecidableEq, Repr

structure ConfJson where
  blank_on_exit : Option Bool
  daemonize : Option Bool
  daemon : Option DaemonConfJson
  deriving DecidableEq, Repr

/-- `RGBd.__init__` (lines 15-34): reads `blank_on_exit` (default `False`) and
`daemonize` (default `True`); when `daemonize == False` it returns before
setting any `self.daemon_*` attribute; otherwise it fills them from the
`daemon` sub-dict with the source's defaults (`os.devnull = "/dev/null"`). -/
def RGBd.init (c : ConfJson) : RGBd :=
  let blank := c.blank_on_exit.getD false
  let dodaem := c.daemonize.getD true
  if dodaem = false then
    { blank_on_exit := blank, do_daemonize := dodaem, attrs := none,
      hasStrip := false, listener := none }
  else
    let d := c.daemon.getD ⟨none, none, none, none, none, none, none, none⟩
    { blank_on_exit := blank, do_daemonize := dodaem,
      attrs := some
        { daemon_stdin := d.stdin.getD "/dev/null",
          daemon_in_md := d.stdin_mode.getD "r",
          daemon_stdout := d.stdout.getD "/dev/null",
          daemon_out_md := d.stdout_mode.getD "a",
          daemon_stderr := d.stderr.getD "/dev/null",
          daemon_err_md := d.stderr_mode.getD "a",
          daemon_chdir := d.working_dir.getD "/",
          daemon_pidfile := d.pidfile.getD "/tmp/rgbd.pid" },
      hasStrip := false, listener := none }

/-- Python `str.strip()` with no argument: remove whitespace from both
ends. -/
def pyStrip (s : String) : List Char :=
  ((s.toList.dropWhile Char.isWhitespace).reverse.dropWhile
    Char.isWhitespace).reverse

/-- Python `int(s)` on `s.strip()`: optional sign followed by a nonempty run
of decimal digits (underscore grouping, an edge Python also accepts, does not
occur in pidfiles and is not modelled); `none` models the `ValueError`. -/
def parseInt (s : String) : Option Int :=
  let digits : List Char → Option Nat := fun l =>
    if l ≠ [] ∧ l.all Char.isDigit then
      some (l.foldl (fun a c => a * 10 + (c.toNat - 48)) 0)
    else none
  match pyStrip s with
  | '-' :: rest => (digits rest).map (fun n => -(n : Int))
  | '+' :: rest => (digits rest).map (fun n => (n : Int))
  | l => (digits l).map (fun n => (n : Int))

/-- The pidfile-reading prologue shared by `start` (lines 134-138) and `stop`
(lines 150-154): `open` + `int(read().strip())` with only `FileNotFoundError`
caught (→ `pid = None`); a parse failure is an uncaught `ValueError`. -/
def readPid (w : World) : Except Err (Option Int) :=
  match w.pidfile with
  | none => .ok none
  | some s =>
    match parseInt s with
    | none => .error .valueError
    | some p => .ok (some p)

/-- Lines 60-66 of `cleanup`: SIGINT the listener child, `join` it with a
0.25 s timeout, and if it is still alive SIGKILL it and print the warning. -/
def terminateChild (c : ChildInfo) : List Ev :=
  [Ev.sigintChild c.pid, Ev.joinChild] ++
    (if c.respondsToInt then []
     else [Ev.sigkillChild c.pid, Ev.warnKilledChild])

/-- `RGBd.cleanup` (lines 57-77): blank the strip if configured, terminate the
listener child, remove the pidfile tolerating absence, print the exit message,
close the streams and `sys.exit(0)`.  Reading `self.strip` (line 59, only when
`blank_on_exit`), `self.listener_thread` (line 60) or `self.daemon_pidfile`
(line 69) when unset raises `AttributeError` at that point; the
`FileNotFoundError` of `os.remove` is caught (lines 68-71). -/
def RGBd.cleanup (self : RGBd) (w : World) : World × List Ev × Outcome :=
  if self.blank_on_exit ∧ self.hasStrip = false then
    (w, [], .raised .attributeError)
  else
    let blankEvs := if self.blank_on_exit then [Ev.blank] else []
    match self.listener with
    | none => (w, blankEvs, .raised .attributeError)
    | some c =>
      let evs := blankEvs ++ terminateChild c
      match self.attrs with
      | none => (w, evs, .raised .attributeError)
      | some _ =>
        match w.pidfile with
        | some _ =>
          ({ w with pidfile := none },
           evs ++ [Ev.rmPidfile, Ev.msgExit, Ev.closeStreams], .exited 0)
        | none => (w, evs ++ [Ev.msgExit, Ev.closeStreams], .exited 0)

/-- `RGBd.daemonize` (lines 84-130): a no-op when `do_daemonize` is false;
otherwise double-fork/detach (collapsed into `Ev.forkDetach`, following the
surviving grandchild), bind the signal handlers, and write
`"{os.getpid()}\n"` to the pidfile.  The `self.daemon_*` reads raise
`AttributeError` when unset (unreachable from `start`, which reads
`self.daemon_pidfile` first). -/
def RGBd.daemonize (self : RGBd) (w : World) : World × List Ev × Outcome :=
  if self.do_daemonize = false then (w, [], .returned)
  else
    match self.attrs with
    | none => (w, [], .raised .attributeError)
    | some _ =>
      ({ w with pidfile := some (toString w.selfPid ++ "\n") },
       [Ev.forkDetach, Ev.bindSignals, Ev.writePidfile w.selfPid,
        Ev.msgDaemonized],
       .returned)

/-- `RGBd.run` (lines 40-51): refuse to run as root (uncaught `Exception`),
else spawn the listener child and enter `strip.animate`, which never returns
(`Outcome.running`).  The Python-2 version check (line 41-42) cannot fire on a
Python-3 interpreter and is not modelled; the assignments to `self.queue`,
`self.listener_thread` and `self.strip` are observable only by the signal
handlers and so do not appear in the sequential result. -/
def RGBd.run (_self : RGBd) (w : World) : World × List Ev × Outcome :=
  if w.isRoot then (w, [], .raised .rootError)
  else (w, [Ev.spawnChild, Ev.animate], .running)

/-- Sequencing of two modelled calls: the second runs only if the first
returned normally (an exit, uncaught exception or the non-returning animate
loop propagates). -/
def seqOut (r : World × List Ev × Outcome)
    (f : World → World × List Ev × Outcome) : World × List Ev × Outcome :=
  match r with
  | (w, tr, .returned) => let (w', tr', o) := f w; (w', tr ++ tr', o)
  | other => other

/-- `RGBd.start` (lines 132-146): read the pidfile (absence → `pid = None`,
unparseable content → uncaught `ValueError`); a truthy pid (any nonzero
integer) prints the already-running warning and `sys.exit(1)`; otherwise
`daemonize()` then `run()`. -/
def RGBd.start (self : RGBd) (w : World) : World × List Ev × Outcome :=
  match self.attrs with
  | none => (w, [], .raised .attributeError)
  | some _ =>
    match readPid w with
    | .error e => (w, [], .raised e)
    | .ok pid =>
      match pid with
      | some p =>
        if p = 0 then seqOut (self.daemonize w) self.run
        else (w, [Ev.warnPidfileExists], .exited 1)
      | none => seqOut (self.daemonize w) self.run

/-- `RGBd.stop` (lines 148-181): read the pidfile as in `start`.  A falsy pid
(`None` or `0`) removes a still-existing pidfile, then returns — silently when
`restart`, else after the no-pid warning.  A truthy pid is sent SIGTERM inside
a `try`: `ProcessLookupError` (process gone) → `isalive = False` with the
sleep skipped; `PermissionError` → warning and `sys.exit(1)`; otherwise sleep
0.3 s and probe with `os.kill(pid, 0)`.  Still alive → hang warning and
`sys.exit(1)` leaving the pidfile; dead → remove the pidfile and return. -/
def RGBd.stop (self : RGBd) (restart : Bool) (w : World) :
    World × List Ev × Outcome :=
  match self.attrs with
  | none => (w, [], .raised .attributeError)
  | some _ =>
    match readPid w with
    | .error e => (w, [], .raised e)
    | .ok pid =>
      let notRunning : World × List Ev × Outcome :=
        let rm : World × List Ev :=
          if w.pidfile.isSome then ({ w with pidfile := none }, [Ev.rmPidfile])
          else (w, [])
        if restart then (rm.1, rm.2, .returned)
        else (rm.1, rm.2 ++ [Ev.warnNoPid], .returned)
      let finishDead : World → List Ev → World × List Ev × Outcome :=
        fun w1 evs =>
          if w1.pidfile.isSome then
            ({ w1 with pidfile := none }, evs ++ [Ev.rmPidfile], .returned)
          else (w1, evs, .returned)
      match pid with
      | none => notRunning
      | some p =>
        if p = 0 then notRunning
        else
          if w.alive p = false then
            -- first `os.kill` raises ProcessLookupError: isalive = False
            finishDead w []
          else if w.permitted p = false then
            (w, [Ev.warnPermission], .exited 1)
          else
            let evs := [Ev.sigterm p, Ev.sleep300, Ev.probe p]
            if w.diesOnTerm p then
              finishDead
                { w with alive := fun q => if q = p then false else w.alive q }
                evs
            else (w, evs ++ [Ev.warnHang], .exited 1)

/-- `RGBd.restart` (lines 183-186): `stop(True)` then `start()`. -/
def RGBd.restart (self : RGBd) (w : World) : World × List Ev × Outcome :=
  seqOut (self.stop true w) self.start

/-- `RGBd.reload` (lines 53-55): defined as `restart()`. -/
def RGBd.reload (self : RGBd) (w : World) : World × List Ev × Outcome :=
  self.restart w

/-- Liveness of the listener child after one event: the 0.25 s `join` window
closing kills it exactly when it responds to SIGINT; SIGKILL always does. -/
def stepAlive (responds : Bool) (alive : Bool) (e : Ev) : Bool :=
  match e with
  | Ev.joinChild => alive && !responds
  | Ev.sigkillChild _ => false
  | _ => alive

/-- Scans a trace checking that at each `rmPidfile` event the listener child
(initially in liveness state `alive`) is already dead. -/
def removalSafe (responds : Bool) : Bool → List Ev → Bool
  | _, [] => true
  | alive, e :: rest =>
    if e = Ev.rmPidfile ∧ alive = true then false
    else removalSafe responds (stepAlive responds alive e) rest

/-- Scans a trace checking that no `blank` event occurs after a SIGINT to the
child, i.e. blanking strictly precedes signalling the child. -/
def blankBeforeSigint : Bool → List Ev → Bool
  | _, [] => true
  | seenSig, e :: rest =>
    match e with
    | Ev.blank => !seenSig && blankBeforeSigint seenSig rest
    | Ev.sigintChild _ => blankBeforeSigint true rest
    | _ => blankBeforeSigint seenSig rest

/-- Worst-case blocking time, in milliseconds, of one trace event: the
`join(timeout=0.25)` and the `time.sleep(0.3)` are the only waits. -/
def waitMs : Ev → Nat
  | Ev.joinChild => 250
  | Ev.sleep300 => 300
  | _ => 0

/-! ## Concrete test fixtures used by the witness theorems -/

/-- The source's default daemon attributes. -/
def attrsT : DaemonAttrs :=
  ⟨"/dev/null", "r", "/dev/null", "a", "/dev/null", "a", "/", "/tmp/rgbd.pid"⟩

/-- A fully initialised daemonized instance whose listener child ignores
SIGINT. -/
def rgbdT : RGBd :=
  { blank_on_exit := true, do_daemonize := true, attrs := some attrsT,
    hasStrip := true, listener := some ⟨12, false⟩ }

/-- A world whose pidfile names the live, SIGTERM-ignoring process 4242. -/
def wLive : World :=
  { pidfile := some "4242\n", alive := fun _ => true,
    permitted := fun _ => true, diesOnTerm := fun _ => false,
    isRoot := false, selfPid := 77 }

/-- A world whose pidfile names 4242 but no such process exists. -/
def wStale : World := { wLive with alive := fun _ => false }

/-- A world with no pidfile. -/
def wNone : World := { wLive with pidfile := none }

/-! ## Claims -/

/-- C3: for every child process, the watchdog terminate sequence of `cleanup`
(lines 60-66) first sends SIGINT, then waits at most 0.25 s (the `join`
timeout) for the child to exit, and if the child is still alive sends SIGKILL
and prints the escalation warning; its total blocking time is bounded by
250 ms, so it never blocks indefinitely. -/
theorem C3_watchdog_terminate (c : ChildInfo) :
    (terminateChild c).head? = some (Ev.sigintChild c.pid) ∧
    (terminateChild c)[1]? = some Ev.joinChild ∧
    ((terminateChild c).map waitMs).sum ≤ 250 ∧
    (c.respondsToInt = false →
      terminateChild c =
        [Ev.sigintChild c.pid, Ev.joinChild, Ev.sigkillChild c.pid,
         Ev.warnKilledChild]) ∧
    (c.respondsToInt = true →
      terminateChild c = [Ev.sigintChild c.pid, Ev.joinChild]) := by
  obtain ⟨p, r⟩ := c
  cases r <;> simp [terminateChild, waitMs]

theorem C3_watchdog_terminate_witness :
    terminateChild ⟨12, false⟩ =
      [Ev.sigintChild 12, Ev.joinChild, Ev.sigkillChild 12,
       Ev.warnKilledChild] :=
  (C3_watchdog_terminate ⟨12, false⟩).2.2.2.1 rfl

/-- C2: in every execution of `cleanup` on an instance whose listener child
exists (and whose strip exists whenever blanking is configured), blanking
happens strictly before the child is signalled (`blankBeforeSigint`), and the
pidfile is never removed while the child is still alive (`removalSafe`: at
every `rmPidfile` event the child, killed by the join window closing or by
SIGKILL, is already dead); when configured, blanking does occur, and when the
attributes and pidfile are present the removal does occur. -/
theorem C2_cleanup_ordering (self : RGBd) (c : ChildInfo) (w : World)
    (hl : self.listener = some c)
    (hs : self.blank_on_exit = true → self.hasStrip = true) :
    blankBeforeSigint false (self.cleanup w).2.1 = true ∧
    removalSafe c.respondsToInt true (self.cleanup w).2.1 = true ∧
    (self.blank_on_exit = true → Ev.blank ∈ (self.cleanup w).2.1) ∧
    (self.attrs.isSome = true → w.pidfile.isSome = true →
      Ev.rmPidfile ∈ (self.cleanup w).2.1) := by
  obtain ⟨cp, cr⟩ := c
  obtain ⟨b, d, attrs, strip, l⟩ := self
  simp only [RGBd.listener] at hl
  simp only [RGBd.blank_on_exit, RGBd.hasStrip] at hs
  subst hl
  rcases hpf : w.pidfile with _ | s <;> cases attrs <;> cases b <;>
    cases strip <;> cases cr <;>
      simp_all [RGBd.cleanup, terminateChild, removalSafe, blankBeforeSigint,
        stepAlive]

theorem C2_cleanup_ordering_witness :
    blankBeforeSigint false (rgbdT.cleanup wLive).2.1 = true ∧
    removalSafe false true (rgbdT.cleanup wLive).2.1 = true ∧
    (rgbdT.blank_on_exit = true → Ev.blank ∈ (rgbdT.cleanup wLive).2.1) ∧
    (rgbdT.attrs.isSome = true → wLive.pidfile.isSome = true →
      Ev.rmPidfile ∈ (rgbdT.cleanup wLive).2.1) :=
  C2_cleanup_ordering rgbdT ⟨12, false⟩ wLive rfl (fun _ => rfl)

/-- C6: invoking `cleanup` when the pidfile is already absent (on a normally
initialised, running instance) raises no exception and still exits with
status 0 — the `FileNotFoundError` of `os.remove` is caught at lines 68-71. -/
theorem C6_cleanup_absent_pidfile (self : RGBd) (c : ChildInfo)
    (a : DaemonAttrs) (w : World)
    (hl : self.listener = some c)
    (hs : self.blank_on_exit = true → self.hasStrip = true)
    (ha : self.attrs = some a)
    (hp : w.pidfile = none) :
    (self.cleanup w).2.2 = Outcome.exited 0 := by
  obtain ⟨b, d, attrs, strip, l⟩ := self
  simp only [RGBd.listener] at hl
  simp only [RGBd.blank_on_exit, RGBd.hasStrip] at hs
  simp only [RGBd.attrs] at ha
  subst hl; subst ha
  cases b <;> cases strip <;>
    simp_all [RGBd.cleanup, hp]

theorem C6_cleanup_absent_pidfile_witness :
    (rgbdT.cleanup wNone).2.2 = Outcome.exited 0 :=
  C6_cleanup_absent_pidfile rgbdT ⟨12, false⟩ attrsT wNone rfl
    (fun _ => rfl) rfl rfl

/-- C1: whenever reading the pidfile yields a PID — the parsed content is a
nonzero integer, PID 0 being Python-falsy and treated as an absent pidfile
(see `C9_pid_zero_like_absent`) — `start` writes only the already-running
warning, exits with status 1, leaves the world unchanged (no other side
effects) and never reaches `daemonize` or `run`. -/
theorem C1_start_singleton (self : RGBd) (a : DaemonAttrs) (w : World)
    (s : String) (p : Int)
    (ha : self.attrs = some a) (hf : w.pidfile = some s)
    (hp : parseInt s = some p) (hnz : p ≠ 0) :
    self.start w = (w, [Ev.warnPidfileExists], Outcome.exited 1) ∧
    Ev.forkDetach ∉ (self.start w).2.1 ∧
    Ev.spawnChild ∉ (self.start w).2.1 := by
  obtain ⟨b, d, attrs, strip, l⟩ := self
  simp only [RGBd.attrs] at ha
  subst ha
  simp_all [RGBd.start, readPid, hf, hp, hnz]

theorem C1_start_singleton_witness :
    RGBd.start rgbdT wLive = (wLive, [Ev.warnPidfileExists], Outcome.exited 1) ∧
    Ev.forkDetach ∉ (RGBd.start rgbdT wLive).2.1 ∧
    Ev.spawnChild ∉ (RGBd.start rgbdT wLive).2.1 :=
  C1_start_singleton rgbdT attrsT wLive "4242\n" 4242 rfl rfl (by decide)
    (by decide)

/-- C4: on a stale pidfile — content parses to a nonzero PID whose process
does not exist — `stop` (with either restart flag) removes the pidfile and
returns normally: its whole trace is the single removal, so no warning is
printed and no exit is taken; the first `os.kill` raises
`ProcessLookupError`, caught at line 168. -/
theorem C4_stop_stale_lock (self : RGBd) (a : DaemonAttrs) (w : World)
    (s : String) (p : Int) (r : Bool)
    (ha : self.attrs = some a) (hf : w.pidfile = some s)
    (hp : parseInt s = some p) (hnz : p ≠ 0)
    (hdead : w.alive p = false) :
    self.stop r w = ({ w with pidfile := none }, [Ev.rmPidfile],
      Outcome.returned) := by
  obtain ⟨b, d, attrs, strip, l⟩ := self
  simp only [RGBd.attrs] at ha
  subst ha
  simp_all [RGBd.stop, readPid, hf, hp, hnz, hdead]

theorem C4_stop_stale_lock_witness :
    RGBd.stop rgbdT false wStale =
      ({ wStale with pidfile := none }, [Ev.rmPidfile], Outcome.returned) :=
  C4_stop_stale_lock rgbdT attrsT wStale "4242\n" 4242 false rfl rfl
    (by decide) (by decide) rfl

/-- C5: on a pidfile naming a live process that ignores SIGTERM, `stop` sends
SIGTERM, sleeps the fixed 0.3 s grace period, probes, prints the hang warning
and exits with status 1; the world — in particular the pidfile — is unchanged,
so invoking `stop` again under the same condition yields the identical
result. -/
theorem C5_stop_hang (self : RGBd) (a : DaemonAttrs) (w : World)
    (s : String) (p : Int) (r : Bool)
    (ha : self.attrs = some a) (hf : w.pidfile = some s)
    (hp : parseInt s = some p) (hnz : p ≠ 0)
    (halive : w.alive p = true) (hperm : w.permitted p = true)
    (hhang : w.diesOnTerm p = false) :
    self.stop r w =
      (w, [Ev.sigterm p, Ev.sleep300, Ev.probe p, Ev.warnHang],
       Outcome.exited 1) ∧
    (self.stop r w).1.pidfile = some s ∧
    self.stop r (self.stop r w).1 = self.stop r w := by
  have key : self.stop r w =
      (w, [Ev.sigterm p, Ev.sleep300, Ev.probe p, Ev.warnHang],
       Outcome.exited 1) := by
    obtain ⟨b, d, attrs, strip, l⟩ := self
    simp only [RGBd.attrs] at ha
    subst ha
    simp_all [RGBd.stop, readPid, hf, hp, hnz, halive, hperm, hhang]
  refine ⟨key, ?_, ?_⟩
  · rw [key]; exact hf
  · rw [key]; exact key

theorem C5_stop_hang_witness :
    RGBd.stop rgbdT false wLive =
      (wLive, [Ev.sigterm 4242, Ev.sleep300, Ev.probe 4242, Ev.warnHang],
       Outcome.exited 1) ∧
    (RGBd.stop rgbdT false wLive).1.pidfile = some "4242\n" ∧
    RGBd.stop rgbdT false (RGBd.stop rgbdT false wLive).1 =
      RGBd.stop rgbdT false wLive :=
  C5_stop_hang rgbdT attrsT wLive "4242\n" 4242 false rfl rfl (by decide)
    (by decide) rfl rfl rfl

/-- C7: with no pidfile, `stop` returns normally for either restart flag; the
no-pid warning is printed exactly when the call is not part of a restart; and
`restart()` on such a stopped instance is literally the same computation as a
fresh `start()` — the `stop(True)` phase contributes no event and no state
change. -/
theorem C7_stop_noop_and_restart (self : RGBd) (a : DaemonAttrs) (w : World)
    (ha : self.attrs = some a) (hf : w.pidfile = none) :
    (∀ r : Bool, (self.stop r w).2.2 = Outcome.returned) ∧
    (∀ r : Bool, (Ev.warnNoPid ∈ (self.stop r w).2.1 ↔ r = false)) ∧
    self.stop true w = (w, [], Outcome.returned) ∧
    self.restart w = self.start w := by
  have key : ∀ r : Bool, self.stop r w =
      (w, if r then [] else [Ev.warnNoPid], Outcome.returned) := by
    intro r
    obtain ⟨b, d, attrs, strip, l⟩ := self
    simp only [RGBd.attrs] at ha
    subst ha
    cases r <;> simp [RGBd.stop, readPid, hf]
  refine ⟨fun r => by rw [key r], fun r => ?_, key true, ?_⟩
  · cases r <;> simp [key]
  · rcases hs : self.start w with ⟨w', tr', o⟩
    simp [RGBd.restart, seqOut, key true, hs]

theorem C7_stop_noop_and_restart_witness :
    RGBd.stop rgbdT true wNone = (wNone, [], Outcome.returned) ∧
    RGBd.restart rgbdT wNone = RGBd.start rgbdT wNone :=
  ⟨(C7_stop_noop_and_restart rgbdT attrsT wNone rfl rfl).2.2.1,
   (C7_stop_noop_and_restart rgbdT attrsT wNone rfl rfl).2.2.2⟩

/-- C8: with `daemonize: false` in the config, `__init__` returns at line 21
before setting any `self.daemon_*` attribute, so `start`, `stop` and `cleanup`
all end in an uncaught `AttributeError` (at the `self.daemon_pidfile` read for
`start`/`stop`; at the `self.strip` or `self.listener_thread` read for
`cleanup`) instead of any foreground-mode behaviour. -/
theorem C8_daemonize_false_attribute_error (conf : ConfJson) (w : World)
    (r : Bool) (hd : conf.daemonize = some false) :
    (RGBd.init conf).attrs = none ∧
    ((RGBd.init conf).start w).2.2 = Outcome.raised Err.attributeError ∧
    ((RGBd.init conf).stop r w).2.2 = Outcome.raised Err.attributeError ∧
    ((RGBd.init conf).cleanup w).2.2 = Outcome.raised Err.attributeError := by
  obtain ⟨bo, dz, dm⟩ := conf
  simp only [ConfJson.daemonize] at hd
  subst hd
  have hinit : RGBd.init ⟨bo, some false, dm⟩ =
      { blank_on_exit := bo.getD false, do_daemonize := false, attrs := none,
        hasStrip := false, listener := none } := by
    simp [RGBd.init]
  rw [hinit]
  rcases hb : bo.getD false with _ | _ <;>
    refine ⟨rfl, ?_, ?_, ?_⟩ <;>
      simp [RGBd.start, RGBd.stop, RGBd.cleanup]

theorem C8_daemonize_false_attribute_error_witness :
    (RGBd.init ⟨some true, some false, none⟩).attrs = none ∧
    ((RGBd.init ⟨some true, some false, none⟩).start wNone).2.2 =
      Outcome.raised Err.attributeError ∧
    ((RGBd.init ⟨some true, some false, none⟩).stop false wNone).2.2 =
      Outcome.raised Err.attributeError ∧
    ((RGBd.init ⟨some true, some false, none⟩).cleanup wNone).2.2 =
      Outcome.raised Err.attributeError :=
  C8_daemonize_false_attribute_error ⟨some true, some false, none⟩ wNone
    false rfl

/-- C9: a pidfile whose content parses to `0` (Python-falsy) is treated like
an absent pidfile: `start` is the very same computation as on an absent
pidfile — it daemonizes and runs, never printing the already-running warning
or exiting 1 — and `stop` deletes the file, returns treating the daemon as not
running, and sends SIGTERM to no process at all (in particular never to
PID 0). -/
theorem C9_pid_zero_like_absent (self : RGBd) (a : DaemonAttrs) (w : World)
    (s : String)
    (ha : self.attrs = some a) (hdo : self.do_daemonize = true)
    (hroot : w.isRoot = false)
    (hf : w.pidfile = some s) (hp : parseInt s = some 0) :
    self.start w = self.start { w with pidfile := none } ∧
    (self.start w).2.2 = Outcome.running ∧
    Ev.forkDetach ∈ (self.start w).2.1 ∧
    Ev.spawnChild ∈ (self.start w).2.1 ∧
    Ev.warnPidfileExists ∉ (self.start w).2.1 ∧
    (∀ r : Bool,
      (self.stop r w).1.pidfile = none ∧
      (self.stop r w).2.2 = Outcome.returned ∧
      ∀ q : Int, Ev.sigterm q ∉ (self.stop r w).2.1) := by
  obtain ⟨b, d, attrs, strip, l⟩ := self
  simp only [RGBd.attrs] at ha
  simp only [RGBd.do_daemonize] at hdo
  subst ha; subst hdo
  have hstart : RGBd.start ⟨b, true, some a, strip, l⟩ w =
      ({ w with pidfile := some (toString w.selfPid ++ "\n") },
       [Ev.forkDetach, Ev.bindSignals, Ev.writePidfile w.selfPid,
        Ev.msgDaemonized, Ev.spawnChild, Ev.animate], Outcome.running) := by
    simp [RGBd.start, readPid, hf, hp, RGBd.daemonize, RGBd.run, seqOut,
      hroot]
  have hstart' : RGBd.start ⟨b, true, some a, strip, l⟩
      { w with pidfile := none } =
      ({ w with pidfile := some (toString w.selfPid ++ "\n") },
       [Ev.forkDetach, Ev.bindSignals, Ev.writePidfile w.selfPid,
        Ev.msgDaemonized, Ev.spawnChild, Ev.animate], Outcome.running) := by
    simp [RGBd.start, readPid, RGBd.daemonize, RGBd.run, seqOut, hroot]
  refine ⟨hstart.trans hstart'.symm, by rw [hstart], by rw [hstart]; simp,
    by rw [hstart]; simp, by rw [hstart]; simp, fun r => ?_⟩
  have hstop : RGBd.stop ⟨b, true, some a, strip, l⟩ r w =
      ({ w with pidfile := none },
       if r then [Ev.rmPidfile] else [Ev.rmPidfile, Ev.warnNoPid],
       Outcome.returned) := by
    cases r <;> simp [RGBd.stop, readPid, hf, hp]
  refine ⟨by rw [hstop], by rw [hstop], fun q => by rw [hstop]; cases r <;> simp⟩

theorem C9_pid_zero_like_absent_witness :
    (RGBd.start rgbdT { wLive with pidfile := some "0\n" }).2.2 =
      Outcome.running ∧
    (RGBd.stop rgbdT false { wLive with pidfile := some "0\n" }).1.pidfile =
      none :=
  ⟨(C9_pid_zero_like_absent rgbdT attrsT { wLive with pidfile := some "0\n" }
      "0\n" rfl rfl rfl rfl (by decide)).2.1,
   ((C9_pid_zero_like_absent rgbdT attrsT { wLive with pidfile := some "0\n" }
      "0\n" rfl rfl rfl rfl (by decide)).2.2.2.2.2 false).1⟩

/-- C10: a pidfile whose trimmed content `int()` cannot parse makes both
`start` and `stop` end in the uncaught `ValueError` — no warning, no exit
status 1, no change to the world; only absence of the file is caught
(`except FileNotFoundError`, lines 137 and 153). -/
theorem C10_unparseable_pidfile (self : RGBd) (a : DaemonAttrs) (w : World)
    (s : String) (r : Bool)
    (ha : self.attrs = some a) (hf : w.pidfile = some s)
    (hp : parseInt s = none) :
    self.start w = (w, [], Outcome.raised Err.valueError) ∧
    self.stop r w = (w, [], Outcome.raised Err.valueError) := by
  obtain ⟨b, d, attrs, strip, l⟩ := self
  simp only [RGBd.attrs] at ha
  subst ha
  constructor <;> simp [RGBd.start, RGBd.stop, readPid, hf, hp]

theorem C10_unparseable_pidfile_witness :
    RGBd.start rgbdT { wLive with pidfile := some "zzz" } =
      ({ wLive with pidfile := some "zzz" }, [],
       Outcome.raised Err.valueError) ∧
    RGBd.stop rgbdT false { wLive with pidfile := some "zzz" } =
      ({ wLive with pidfile := some "zzz" }, [],
       Outcome.raised Err.valueError) :=
  C10_unparseable_pidfile rgbdT attrsT { wLive with pidfile := some "zzz" }
    "zzz" false rfl rfl (by decide)
